import Mathlib

/-!
Verification of the spam-reporting Outlook add-in
(src/src/spamreporting/spamreporting.ts and
src/src/spamreporting/msgraph-helper.ts) against its specification.

The TypeScript code is shallowly embedded: every external effect
(fetch responses, the MSAL token acquisition, the Office host context,
the platform JSON parser) is passed in explicitly as data, and each
async function becomes a pure function returning `Except String _`
(rejection with an error message, resolution with a value).
-/

/-- A model of JavaScript JSON values, as produced by JSON.parse /
response.json().  Arrays do not occur anywhere in the request or
response handling of this program, so they are omitted from the model. -/
inductive Json where
  | null : Json
  | bool : Bool → Json
  | num : Int → Json
  | str : String → Json
  | obj : List (String × Json) → Json

/-- JavaScript truthiness of a JSON value
(null, false, 0 and the empty string are falsy). -/
def jsTruthy : Json → Bool
  | Json.null => false
  | Json.bool b => b
  | Json.num n => n != 0
  | Json.str s => s != ""
  | Json.obj _ => true

/-- JavaScript property access `v[name]`: field lookup on an object,
`undefined` (modelled as `Json.null`, which is equally falsy) on a
missing field or a non-object. -/
def jsGetField : Json → String → Json
  | Json.obj fields, name => ((fields.find? (fun p => p.1 == name)).map Prod.snd).getD Json.null
  | _, _ => Json.null

/-- JavaScript string interpolation of a value inside a template literal. -/
def jsToString : Json → String
  | Json.null => "null"
  | Json.bool true => "true"
  | Json.bool false => "false"
  | Json.num n => toString n
  | Json.str s => s
  | Json.obj _ => "[object Object]"

mutual

/-- A model of JSON.stringify on the Json values above. -/
def Json.stringify : Json → String
  | Json.null => "null"
  | Json.bool true => "true"
  | Json.bool false => "false"
  | Json.num n => toString n
  | Json.str s => "\"" ++ s ++ "\""
  | Json.obj fields => "\x7b" ++ Json.stringifyFields fields ++ "\x7d"

/-- Comma-separated `"key":value` rendering of the fields of an object. -/
def Json.stringifyFields : List (String × Json) → String
  | [] => ""
  | [(k, v)] => "\"" ++ k ++ "\":" ++ Json.stringify v
  | (k, v) :: rest => "\"" ++ k ++ "\":" ++ Json.stringify v ++ "," ++ Json.stringifyFields rest

end

/-- JavaScript String.prototype.startsWith, modelled over the
character list so that it evaluates by structural recursion. -/
def jsStartsWith (s p : String) : Bool := p.data.isPrefixOf s.data

/-- A fetch Response as observed by this code: status, statusText and
the raw body text.  `response.json()` is modelled by applying the
ambient JSON parser (a parameter of the embedded functions) to
`bodyText`. -/
structure HttpResponse where
  status : Nat
  statusText : String
  bodyText : String
deriving DecidableEq

/-- The fetch `response.ok` property: status in the inclusive range 200-299. -/
def HttpResponse.ok (r : HttpResponse) : Bool :=
  decide (200 ≤ r.status ∧ r.status < 300)

/-- The single-quote character, used in the precondition error messages. -/
def quoteChar : String := String.singleton (Char.ofNat 39)

/-- Error message thrown on a path that does not start with "/". -/
def pathSlashMsg : String := "path must start with " ++ quoteChar ++ "/" ++ quoteChar ++ "."

/-- Error message thrown on a non-empty queryParams that does not start with "?". -/
def queryMarkMsg : String := "queryParams must start with " ++ quoteChar ++ "?" ++ quoteChar ++ "."

/-- Embeds makeGraphRequest from msgraph-helper.ts.  `response` is the
response the single fetch of the Graph GET endpoint would produce, and
`parse` is the platform JSON parser applied by `response.json()`; a
body that does not parse makes `response.json()` reject. -/
def makeGraphRequest (accessToken path queryParams : String)
    (response : HttpResponse) (parse : String → Option Json) : Except String Json :=
  if path = "" then Except.error "path is required."
  else if ¬ jsStartsWith path "/" then Except.error pathSlashMsg
  else if queryParams ≠ "" ∧ ¬ jsStartsWith queryParams "?" then Except.error queryMarkMsg
  else if response.ok then
    match parse response.bodyText with
    | some data => Except.ok data
    | none => Except.error "Unexpected end of JSON input"
  else Except.error response.statusText

/-- The error message makeGraphPostRequest builds from a non-ok
response: status and statusText, then the embedded JSON error message
when the body parses as an object with a truthy error field, otherwise
the raw body text. -/
def postErrorMessage (response : HttpResponse) (parse : String → Option Json) : String :=
  let base := toString response.status ++ " " ++ response.statusText
  match parse response.bodyText with
  | none => base ++ ": " ++ response.bodyText
  | some errorData =>
    let errField := jsGetField errorData "error"
    if jsTruthy errField then
      let msg := jsGetField errField "message"
      if jsTruthy msg then base ++ ": " ++ jsToString msg
      else base ++ ": " ++ Json.stringify errField
    else base

/-- Embeds makeGraphPostRequest from msgraph-helper.ts.  `response` is
the response the single fetch of the Graph POST endpoint would
produce; the outer try/catch rethrows unchanged, so it does not show
in the embedding. -/
def makeGraphPostRequest (accessToken path : String) (body : Json)
    (response : HttpResponse) (parse : String → Option Json) : Except String Json :=
  if path = "" then Except.error "path is required."
  else if ¬ jsStartsWith path "/" then Except.error pathSlashMsg
  else if response.ok then
    match parse response.bodyText with
    | some data => Except.ok data
    | none => Except.error "Unexpected end of JSON input"
  else Except.error (postErrorMessage response parse)



/-- The three report categories of the threat-submission API. -/
inductive Category where
  | spam : Category
  | phishing : Category
  | notJunk : Category
deriving DecidableEq

/-- The category string placed in the request body. -/
def Category.toStr : Category → String
  | Category.spam => "spam"
  | Category.phishing => "phishing"
  | Category.notJunk => "notJunk"

/-- The currently selected mail item of Office.context.mailbox:
`itemId` is `none` when the property is undefined (compose mode). -/
structure OfficeItem where
  itemId : Option String
deriving DecidableEq

/-- Office.context.mailbox.userProfile: `emailAddress` is `none` when
the property is undefined. -/
structure UserProfileCtx where
  emailAddress : Option String
deriving DecidableEq

/-- The Office host session context that spamreporting.ts reads:
the selected item, the user profile, and the host-provided
convertToRestId utility (an abstract function). -/
structure OfficeContext where
  item : Option OfficeItem
  userProfile : Option UserProfileCtx
  convertToRestId : String → String

/-- Embeds getCurrentUserId from spamreporting.ts.  `meResponse` is the
response of the GET /me fetch.  The catch block rethrows the error
unchanged, so it does not show in the embedding.  The JS guard
`userProfile && userProfile.id` is truthiness of the parsed profile and
of its id field. -/
def getCurrentUserId (accessToken : String) (meResponse : HttpResponse)
    (parse : String → Option Json) : Except String Json :=
  match makeGraphRequest accessToken "/me" "?$select=id" meResponse parse with
  | Except.error e => Except.error e
  | Except.ok userProfile =>
    if jsTruthy userProfile ∧ jsTruthy (jsGetField userProfile "id") then
      Except.ok (jsGetField userProfile "id")
    else Except.error "Unable to retrieve user ID from Graph API"

/-- The fixed Graph API base used for the message URL. -/
def graphBase : String := "https://graph.microsoft.com/beta"

/-- Embeds getCurrentMessageUrl from spamreporting.ts.  JS truthiness
of `item.itemId` makes an undefined or empty identifier fall to the
rejection branch; the catch around the user-id lookup and conversion
rejects with the same error, unchanged. -/
def getCurrentMessageUrl (accessToken : String) (ctx : OfficeContext)
    (meResponse : HttpResponse) (parse : String → Option Json) : Except String String :=
  match ctx.item with
  | none => Except.error "No email item is currently selected."
  | some item =>
    match item.itemId with
    | some itemId =>
      if itemId = "" then Except.error "Item ID is not available - cannot get message URL"
      else
        match getCurrentUserId accessToken meResponse parse with
        | Except.error e => Except.error e
        | Except.ok userId =>
          Except.ok (graphBase ++ "/users/" ++ jsToString userId ++ "/messages/"
            ++ ctx.convertToRestId itemId)
    | none => Except.error "Item ID is not available - cannot get message URL"

/-- Embeds getRecipientEmailAddress from spamreporting.ts.  The JS
guard `userProfile && userProfile.emailAddress` is truthiness: an
absent profile, an absent address, or an empty address rejects. -/
def getRecipientEmailAddress (ctx : OfficeContext) : Except String String :=
  match ctx.userProfile with
  | some up =>
    match up.emailAddress with
    | some e => if e = "" then Except.error "Unable to get user email address" else Except.ok e
    | none => Except.error "Unable to get user email address"
  | none => Except.error "Unable to get user email address"

/-- The ephemeral Report value object of the data model. -/
structure Report where
  category : Category
  recipientEmailAddress : String
  messageUrl : String
deriving DecidableEq

/-- The JSON request body submitEmailThreat builds from a Report. -/
def reportBody (r : Report) : Json :=
  Json.obj [("@odata.type", Json.str "#microsoft.graph.security.emailUrlThreatSubmission"),
    ("category", Json.str r.category.toStr),
    ("recipientEmailAddress", Json.str r.recipientEmailAddress),
    ("messageUrl", Json.str r.messageUrl)]

/-- The external world of one submitEmailThreat run: the outcome of
the MSAL token acquisition, the Office host context, the responses the
two fetches would produce, and the platform JSON parser. -/
structure SubmitEnv where
  tokenResult : Except String String
  ctx : OfficeContext
  meResponse : HttpResponse
  postResponse : HttpResponse
  parse : String → Option Json

/-- Embeds submitEmailThreat from spamreporting.ts.  The second
component records the Report whose body was POSTed, `none` when the
run failed before reaching the POST.  The catch block rethrows the
error unchanged, so it does not show in the embedding. -/
def submitEmailThreat (category : Category) (env : SubmitEnv) :
    Except String Json × Option Report :=
  match env.tokenResult with
  | Except.error e => (Except.error e, none)
  | Except.ok accessToken =>
    match getRecipientEmailAddress env.ctx with
    | Except.error e => (Except.error e, none)
    | Except.ok recipientEmail =>
      match getCurrentMessageUrl accessToken env.ctx env.meResponse env.parse with
      | Except.error e => (Except.error e, none)
      | Except.ok messageUrl =>
        (makeGraphPostRequest accessToken "/security/threatSubmission/emailThreats"
          (reportBody ⟨category, recipientEmail, messageUrl⟩) env.postResponse env.parse,
         some ⟨category, recipientEmail, messageUrl⟩)

/-- A JavaScript value stored in the options object of the event; the
handler compares entries against the boolean true with strict
equality. -/
inductive JSVal where
  | vUndefined : JSVal
  | vBool : Bool → JSVal
  | vNum : Int → JSVal
  | vStr : String → JSVal
deriving DecidableEq

/-- JavaScript truthiness of an options entry. -/
def JSVal.truthy : JSVal → Bool
  | JSVal.vUndefined => false
  | JSVal.vBool b => b
  | JSVal.vNum n => n != 0
  | JSVal.vStr s => s != ""

/-- Embeds the category-selection block of onSpamReport
(spamreporting.ts lines 197-214).  The options object is a total map
from numeric index to entry, `JSVal.vUndefined` on missing keys, and
`none` when `event.options` itself is absent.  Each test is the strict
comparison `reportingOptions[i] === true`. -/
def chooseCategory (reportingOptions : Option (Nat → JSVal)) : Category :=
  match reportingOptions with
  | none => Category.phishing
  | some opts =>
    if opts 0 = JSVal.vBool true then Category.phishing
    else if opts 1 = JSVal.vBool true then Category.spam
    else if opts 2 = JSVal.vBool true then Category.notJunk
    else Category.phishing

/-- The argument of event.completed. -/
structure EventCompletedOptions where
  allowEvent : Bool
deriving DecidableEq

/-- Embeds onSpamReport from spamreporting.ts.  `initResult` is the
outcome of accountManager.initialize().  The returned list collects
the calls to event.completed made during the run, in order. -/
def onSpamReport (initResult : Except String Unit) (options : Option (Nat → JSVal))
    (env : SubmitEnv) : List EventCompletedOptions :=
  match initResult with
  | Except.error _ => [⟨false⟩]
  | Except.ok _ =>
    match (submitEmailThreat (chooseCategory options) env).1 with
    | Except.ok _ => [⟨true⟩]
    | Except.error _ => [⟨false⟩]



/-- Appending to a non-empty string yields a non-empty string. -/
theorem string_append_ne_empty : ∀ (s t : String), s ≠ "" → s ++ t ≠ ""
  | ⟨ls⟩, ⟨lt⟩, h, heq => h (by
      have hd : ls ++ lt = [] := congrArg String.data heq
      have hls : ls = [] := (List.append_eq_nil.mp hd).1
      rw [hls])

/-- A resolved recipient address is never the empty string. -/
theorem getRecipientEmailAddress_ok_ne (ctx : OfficeContext) (e : String)
    (h : getRecipientEmailAddress ctx = Except.ok e) : e ≠ "" := by
  obtain ⟨item, up, conv⟩ := ctx
  cases up with
  | none => simp [getRecipientEmailAddress] at h
  | some p =>
    cases hp : p.emailAddress with
    | none => simp [getRecipientEmailAddress, hp] at h
    | some e2 =>
      simp only [getRecipientEmailAddress, hp] at h
      split at h
      · exact absurd h (by simp)
      · rename_i h2
        injection h with h3
        rw [← h3]
        exact h2

/-- A resolved message URL is never the empty string. -/
theorem getCurrentMessageUrl_ok_ne (accessToken : String) (ctx : OfficeContext)
    (meResponse : HttpResponse) (parse : String → Option Json) (u : String)
    (h : getCurrentMessageUrl accessToken ctx meResponse parse = Except.ok u) : u ≠ "" := by
  unfold getCurrentMessageUrl at h
  split at h
  · simp at h
  · split at h
    · split at h
      · simp at h
      · split at h
        · simp at h
        · injection h with h2
          rw [← h2]
          apply string_append_ne_empty
          apply string_append_ne_empty
          apply string_append_ne_empty
          decide
    · simp at h

/-- Claim C3: the command handler maps the options object to a category by
positional precedence (index 0 → phishing, index 1 → spam, index 2 →
notJunk, first strict-equality match wins); in particular whenever index 0
is the boolean true the category is phishing regardless of indices 1, 2. -/
theorem C3_category_precedence (opts : Nat → JSVal) :
    (opts 0 = JSVal.vBool true → chooseCategory (some opts) = Category.phishing) ∧
    (opts 0 ≠ JSVal.vBool true → opts 1 = JSVal.vBool true →
      chooseCategory (some opts) = Category.spam) ∧
    (opts 0 ≠ JSVal.vBool true → opts 1 ≠ JSVal.vBool true → opts 2 = JSVal.vBool true →
      chooseCategory (some opts) = Category.notJunk) := by
  refine ⟨fun h0 => ?_, fun h0 h1 => ?_, fun h0 h1 h2 => ?_⟩
  · simp [chooseCategory, h0]
  · simp [chooseCategory, h0, h1]
  · simp [chooseCategory, h0, h1, h2]

/-- Witness for C3 at an options object with every index true:
index 0 wins and the category is phishing. -/
theorem C3_witness :
    chooseCategory (some (fun _ => JSVal.vBool true)) = Category.phishing :=
  (C3_category_precedence (fun _ => JSVal.vBool true)).1 rfl

/-- Claim C4: when no entry of the options object is the boolean true
(including the case of an absent options object), the category defaults
to phishing. -/
theorem C4_default_phishing (options : Option (Nat → JSVal))
    (h : ∀ opts i, options = some opts → opts i ≠ JSVal.vBool true) :
    chooseCategory options = Category.phishing := by
  cases options with
  | none => rfl
  | some opts => simp [chooseCategory, h opts 0 rfl, h opts 1 rfl, h opts 2 rfl]

/-- Witness for C4 at an options object whose entries are all the
boolean false. -/
theorem C4_witness :
    chooseCategory (some (fun _ => JSVal.vBool false)) = Category.phishing :=
  C4_default_phishing (some (fun _ => JSVal.vBool false))
    (fun opts i hm => by injection hm with h2; rw [← h2]; simp)

/-- Claim C10: selection uses strict equality with the boolean true, so a
truthy entry that is not the exact boolean true does not select its
category and selection falls through; with a truthy non-boolean at index 1
and the boolean true at index 2, the category is notJunk. -/
theorem C10_strict_equality (opts : Nat → JSVal)
    (h0 : opts 0 ≠ JSVal.vBool true)
    (h1t : JSVal.truthy (opts 1) = true) (h1 : opts 1 ≠ JSVal.vBool true)
    (h2 : opts 2 = JSVal.vBool true) :
    chooseCategory (some opts) = Category.notJunk := by
  simp [chooseCategory, h0, h1, h2]

/-- Witness for C10: the string "yes" at index 0 and the number 1 at
index 1 are truthy but not selected; the boolean true at index 2 is. -/
theorem C10_witness :
    chooseCategory (some (fun i => if i = 0 then JSVal.vStr "yes"
      else if i = 1 then JSVal.vNum 1
      else if i = 2 then JSVal.vBool true else JSVal.vUndefined)) = Category.notJunk :=
  C10_strict_equality _ (by decide) (by decide) (by decide) (by decide)

/-- Claim C1: every invocation of onSpamReport calls event.completed
exactly once: with allowEvent true when submitEmailThreat resolves, with
allowEvent false when initialization or submitEmailThreat rejects. -/
theorem C1_completed_exactly_once (initResult : Except String Unit)
    (options : Option (Nat → JSVal)) (env : SubmitEnv) :
    (onSpamReport initResult options env).length = 1 ∧
    (∀ r, initResult = Except.ok () →
      (submitEmailThreat (chooseCategory options) env).1 = Except.ok r →
      onSpamReport initResult options env = [⟨true⟩]) ∧
    (∀ e, initResult = Except.error e →
      onSpamReport initResult options env = [⟨false⟩]) ∧
    (∀ e, initResult = Except.ok () →
      (submitEmailThreat (chooseCategory options) env).1 = Except.error e →
      onSpamReport initResult options env = [⟨false⟩]) := by
  refine ⟨?_, fun r h1 h2 => ?_, fun e h1 => ?_, fun e h1 h2 => ?_⟩
  · cases initResult with
    | error e => rfl
    | ok u =>
      cases hs : (submitEmailThreat (chooseCategory options) env).1 <;>
        simp [onSpamReport, hs]
  · rw [h1]; simp [onSpamReport, h2]
  · rw [h1]; rfl
  · rw [h1]; simp [onSpamReport, h2]

/-- Witness for C1 at a run whose initialization fails: completed is
called once, with allowEvent false. -/
theorem C1_witness :
    onSpamReport (Except.error "init failed") none
      ⟨Except.error "no token", ⟨none, none, id⟩, ⟨200, "OK", ""⟩, ⟨200, "OK", ""⟩,
        fun _ => none⟩ = [⟨false⟩] :=
  (C1_completed_exactly_once (Except.error "init failed") none
    ⟨Except.error "no token", ⟨none, none, id⟩, ⟨200, "OK", ""⟩, ⟨200, "OK", ""⟩,
      fun _ => none⟩).2.2.1 "init failed" rfl

/-- Claim C8: both Graph client operations validate their inputs before
any request is made (the conclusion holds for every response, i.e. the
result does not depend on the network): an empty path or a path not
starting with "/" raises an error in both, and a non-empty queryParams
not starting with "?" raises an error in makeGraphRequest. -/
theorem C8_preconditions (accessToken path queryParams : String) (body : Json)
    (response : HttpResponse) (parse : String → Option Json) :
    (path = "" →
      makeGraphRequest accessToken path queryParams response parse =
        Except.error "path is required." ∧
      makeGraphPostRequest accessToken path body response parse =
        Except.error "path is required.") ∧
    (path ≠ "" → jsStartsWith path "/" = false →
      makeGraphRequest accessToken path queryParams response parse =
        Except.error pathSlashMsg ∧
      makeGraphPostRequest accessToken path body response parse =
        Except.error pathSlashMsg) ∧
    (path ≠ "" → jsStartsWith path "/" = true →
      queryParams ≠ "" → jsStartsWith queryParams "?" = false →
      makeGraphRequest accessToken path queryParams response parse =
        Except.error queryMarkMsg) := by
  refine ⟨fun h => ?_, fun h hs => ?_, fun h hs hq hqs => ?_⟩
  · exact ⟨by simp [makeGraphRequest, h], by simp [makeGraphPostRequest, h]⟩
  · exact ⟨by simp [makeGraphRequest, h, hs], by simp [makeGraphPostRequest, h, hs]⟩
  · simp [makeGraphRequest, h, hs, hq, hqs]

/-- Witness for C8 at the path "me" (no leading slash): both operations
fail with the path-separator error for an arbitrary 200 response. -/
theorem C8_witness :
    makeGraphRequest "tok" "me" "?q" ⟨200, "OK", ""⟩ (fun _ => none) =
      Except.error pathSlashMsg ∧
    makeGraphPostRequest "tok" "me" Json.null ⟨200, "OK", ""⟩ (fun _ => none) =
      Except.error pathSlashMsg :=
  (C8_preconditions "tok" "me" "?q" Json.null ⟨200, "OK", ""⟩ (fun _ => none)).2.1
    (by decide) (by decide)

/-- Counterexample to claim C2: a 403 GET response, even with the
structured error body, makes makeGraphRequest fail with just the HTTP
status text "Forbidden" — a message that contains no digit at all, so
it does not carry the status code 403 and ignores the body. -/
theorem C2_counterexample :
    makeGraphRequest "tok" "/me" ""
      ⟨403, "Forbidden", "\x7b\"error\":\x7b\"message\":\"Forbidden\"\x7d\x7d"⟩
      (fun _ => some (Json.obj [("error", Json.obj [("message", Json.str "Forbidden")])])) =
      Except.error "Forbidden" ∧
    "Forbidden".data.all (fun c => !c.isDigit) = true := ⟨by rfl, by rfl⟩

/-- Claim C2 as amended: only makeGraphPostRequest enriches a non-success
status with the status code plus the embedded JSON error message (or the
raw body text when the body does not parse); makeGraphRequest fails with
just the HTTP status text. -/
theorem C2_amended_error_enrichment (accessToken path : String) (body : Json)
    (response : HttpResponse) (parse parse2 : String → Option Json) (msg : String)
    (hpath : path ≠ "") (hslash : jsStartsWith path "/" = true)
    (hstatus : 300 ≤ response.status ∨ response.status < 200)
    (hparse : parse response.bodyText =
      some (Json.obj [("error", Json.obj [("message", Json.str msg)])]))
    (hmsg : msg ≠ "")
    (hparse2 : parse2 response.bodyText = none) :
    makeGraphPostRequest accessToken path body response parse =
      Except.error (toString response.status ++ " " ++ response.statusText ++ ": " ++ msg) ∧
    makeGraphPostRequest accessToken path body response parse2 =
      Except.error (toString response.status ++ " " ++ response.statusText ++ ": "
        ++ response.bodyText) ∧
    makeGraphRequest accessToken path "" response parse =
      Except.error response.statusText := by
  have hok : response.ok = false := by
    simp only [HttpResponse.ok, decide_eq_false_iff_not]
    omega
  refine ⟨?_, ?_, ?_⟩
  · simp [makeGraphPostRequest, hpath, hslash, hok, postErrorMessage, hparse,
      jsGetField, jsTruthy, jsToString, hmsg]
  · simp [makeGraphPostRequest, hpath, hslash, hok, postErrorMessage, hparse2]
  · simp [makeGraphRequest, hpath, hslash, hok]

/-- Witness for C2 at the 403 POST with body
containing error message "Forbidden": the failure message is
"403 Forbidden: Forbidden" (both the code and the message), the
unparseable variant falls back to the raw text, and the GET carries only
the status text. -/
theorem C2_witness :
    makeGraphPostRequest "tok" "/security/threatSubmission/emailThreats" Json.null
      ⟨403, "Forbidden", "\x7b\"error\":\x7b\"message\":\"Forbidden\"\x7d\x7d"⟩
      (fun _ => some (Json.obj [("error", Json.obj [("message", Json.str "Forbidden")])])) =
      Except.error "403 Forbidden: Forbidden" ∧
    makeGraphPostRequest "tok" "/security/threatSubmission/emailThreats" Json.null
      ⟨403, "Forbidden", "\x7b\"error\":\x7b\"message\":\"Forbidden\"\x7d\x7d"⟩
      (fun _ => none) =
      Except.error ("403 Forbidden: \x7b\"error\":\x7b\"message\":\"Forbidden\"\x7d\x7d") ∧
    makeGraphRequest "tok" "/security/threatSubmission/emailThreats" ""
      ⟨403, "Forbidden", "\x7b\"error\":\x7b\"message\":\"Forbidden\"\x7d\x7d"⟩
      (fun _ => some (Json.obj [("error", Json.obj [("message", Json.str "Forbidden")])])) =
      Except.error "Forbidden" :=
  C2_amended_error_enrichment "tok" "/security/threatSubmission/emailThreats" Json.null
    ⟨403, "Forbidden", "\x7b\"error\":\x7b\"message\":\"Forbidden\"\x7d\x7d"⟩
    (fun _ => some (Json.obj [("error", Json.obj [("message", Json.str "Forbidden")])]))
    (fun _ => none) "Forbidden"
    (by decide) (by decide) (Or.inl (by decide)) rfl (by decide) rfl

/-- Claim C6: with a selected message whose host identifier is available,
getCurrentMessageUrl combines the converted identifier with the resolved
user id into exactly {graphBase}/users/{userId}/messages/{restId}. -/
theorem C6_message_url (accessToken : String) (ctx : OfficeContext)
    (meResponse : HttpResponse) (parse : String → Option Json)
    (item : OfficeItem) (itemId : String) (uid : Json)
    (hitem : ctx.item = some item) (hid : item.itemId = some itemId) (hne : itemId ≠ "")
    (huser : getCurrentUserId accessToken meResponse parse = Except.ok uid) :
    getCurrentMessageUrl accessToken ctx meResponse parse =
      Except.ok (graphBase ++ "/users/" ++ jsToString uid ++ "/messages/"
        ++ ctx.convertToRestId itemId) := by
  simp [getCurrentMessageUrl, hitem, hid, hne, huser]

/-- Witness for C6 at host identifier "AAA=" and a /me profile with id
"u1": the URL is the beta users/{userId}/messages/{restId} form built
from the output of the conversion utility. -/
theorem C6_witness :
    getCurrentMessageUrl "tok"
      ⟨some ⟨some "AAA="⟩, none, fun s => "rest-" ++ s⟩
      ⟨200, "OK", "\x7b\"id\":\"u1\"\x7d"⟩
      (fun _ => some (Json.obj [("id", Json.str "u1")])) =
      Except.ok "https://graph.microsoft.com/beta/users/u1/messages/rest-AAA=" :=
  C6_message_url "tok" ⟨some ⟨some "AAA="⟩, none, fun s => "rest-" ++ s⟩
    ⟨200, "OK", "\x7b\"id\":\"u1\"\x7d"⟩
    (fun _ => some (Json.obj [("id", Json.str "u1")]))
    ⟨some "AAA="⟩ "AAA=" (Json.str "u1") rfl rfl (by decide) (by rfl)

/-- Claim C7: submitEmailThreat rethrows exactly the error of the first
failing sub-step (token acquisition, recipient resolution, message-URL
resolution, or the POST), with no retry, recovery or partial success. -/
theorem C7_error_propagation (category : Category) (env : SubmitEnv) :
    (∀ e, env.tokenResult = Except.error e →
      submitEmailThreat category env = (Except.error e, none)) ∧
    (∀ tok e, env.tokenResult = Except.ok tok →
      getRecipientEmailAddress env.ctx = Except.error e →
      submitEmailThreat category env = (Except.error e, none)) ∧
    (∀ tok email e, env.tokenResult = Except.ok tok →
      getRecipientEmailAddress env.ctx = Except.ok email →
      getCurrentMessageUrl tok env.ctx env.meResponse env.parse = Except.error e →
      submitEmailThreat category env = (Except.error e, none)) ∧
    (∀ tok email url e, env.tokenResult = Except.ok tok →
      getRecipientEmailAddress env.ctx = Except.ok email →
      getCurrentMessageUrl tok env.ctx env.meResponse env.parse = Except.ok url →
      makeGraphPostRequest tok "/security/threatSubmission/emailThreats"
        (reportBody ⟨category, email, url⟩) env.postResponse env.parse = Except.error e →
      submitEmailThreat category env = (Except.error e, some ⟨category, email, url⟩)) := by
  refine ⟨fun e h1 => ?_, fun tok e h1 h2 => ?_, fun tok email e h1 h2 h3 => ?_,
    fun tok email url e h1 h2 h3 h4 => ?_⟩
  · simp [submitEmailThreat, h1]
  · simp [submitEmailThreat, h1, h2]
  · simp [submitEmailThreat, h1, h2, h3]
  · simp [submitEmailThreat, h1, h2, h3, h4]

/-- Witness for C7 at a run whose token acquisition fails: the run fails
with that very error and no POST happens. -/
theorem C7_witness :
    submitEmailThreat Category.spam
      ⟨Except.error "no token", ⟨none, none, id⟩, ⟨200, "OK", ""⟩, ⟨200, "OK", ""⟩,
        fun _ => none⟩ = (Except.error "no token", none) :=
  (C7_error_propagation Category.spam
    ⟨Except.error "no token", ⟨none, none, id⟩, ⟨200, "OK", ""⟩, ⟨200, "OK", ""⟩,
      fun _ => none⟩).1 "no token" rfl

/-- Counterexample to claim C9: a 200 /me response whose profile does
have an identifier field, with value the empty string, makes
getCurrentUserId fail instead of returning that identifier — the guard
is JS truthiness, not mere field presence. -/
theorem C9_counterexample :
    jsGetField (Json.obj [("id", Json.str "")]) "id" = Json.str "" ∧
    getCurrentUserId "tok" ⟨200, "OK", "\x7b\"id\":\"\"\x7d"⟩
      (fun _ => some (Json.obj [("id", Json.str "")])) =
      Except.error "Unable to retrieve user ID from Graph API" := ⟨by rfl, by rfl⟩

/-- Claim C9 as amended: getCurrentUserId fails whenever the parsed /me
profile is falsy or its id field is falsy (absent or empty), and returns
the id field when it is truthy; getRecipientEmailAddress fails whenever
the mailbox address is absent or empty, and returns it otherwise. -/
theorem C9_amended_identity_checks (accessToken : String) (resp : HttpResponse)
    (parse : String → Option Json) (profile : Json) (ctx : OfficeContext) (email : String)
    (hok : makeGraphRequest accessToken "/me" "?$select=id" resp parse = Except.ok profile) :
    ((jsTruthy profile && jsTruthy (jsGetField profile "id")) = true →
      getCurrentUserId accessToken resp parse = Except.ok (jsGetField profile "id")) ∧
    ((jsTruthy profile && jsTruthy (jsGetField profile "id")) = false →
      getCurrentUserId accessToken resp parse =
        Except.error "Unable to retrieve user ID from Graph API") ∧
    (ctx.userProfile = some ⟨some email⟩ → email ≠ "" →
      getRecipientEmailAddress ctx = Except.ok email) ∧
    (ctx.userProfile = some ⟨some ""⟩ ∨ ctx.userProfile = some ⟨none⟩ ∨
        ctx.userProfile = none →
      getRecipientEmailAddress ctx = Except.error "Unable to get user email address") := by
  refine ⟨fun hid => ?_, fun hid => ?_, fun hctx hne => ?_, fun hctx => ?_⟩
  · unfold getCurrentUserId
    rw [hok]
    rw [Bool.and_eq_true] at hid
    simp [hid.1, hid.2]
  · unfold getCurrentUserId
    rw [hok]
    have h : ¬(jsTruthy profile = true ∧ jsTruthy (jsGetField profile "id") = true) := by
      intro hc
      rw [hc.1, hc.2] at hid
      exact absurd hid (by decide)
    simp [h]
  · simp [getRecipientEmailAddress, hctx, hne]
  · rcases hctx with h | h | h <;> simp [getRecipientEmailAddress, h]

/-- Witness for C9 at a profile with truthy id "u1", at a falsy parsed
profile (a 200 /me response whose body is the JSON literal null), and at
a host context with mailbox address "user@contoso.com". -/
theorem C9_witness :
    getCurrentUserId "tok" ⟨200, "OK", "\x7b\"id\":\"u1\"\x7d"⟩
      (fun _ => some (Json.obj [("id", Json.str "u1")])) = Except.ok (Json.str "u1") ∧
    getCurrentUserId "tok" ⟨200, "OK", "null"⟩ (fun _ => some Json.null) =
      Except.error "Unable to retrieve user ID from Graph API" ∧
    getRecipientEmailAddress ⟨none, some ⟨some "user@contoso.com"⟩, id⟩ =
      Except.ok "user@contoso.com" :=
  ⟨(C9_amended_identity_checks "tok" ⟨200, "OK", "\x7b\"id\":\"u1\"\x7d"⟩
      (fun _ => some (Json.obj [("id", Json.str "u1")])) (Json.obj [("id", Json.str "u1")])
      ⟨none, some ⟨some "user@contoso.com"⟩, id⟩ "user@contoso.com" rfl).1 rfl,
   (C9_amended_identity_checks "tok" ⟨200, "OK", "null"⟩
      (fun _ => some Json.null) Json.null
      ⟨none, some ⟨some "user@contoso.com"⟩, id⟩ "user@contoso.com" rfl).2.1 rfl,
   (C9_amended_identity_checks "tok" ⟨200, "OK", "\x7b\"id\":\"u1\"\x7d"⟩
      (fun _ => some (Json.obj [("id", Json.str "u1")])) (Json.obj [("id", Json.str "u1")])
      ⟨none, some ⟨some "user@contoso.com"⟩, id⟩ "user@contoso.com" rfl).2.2.1
      rfl (by decide)⟩

/-- Claim C5: the threat-submission POST is only attempted with a Report
whose recipient address and message URL are non-empty and whose category
is one of the three enumerated values; a run that does not reach the
POST fails. -/
theorem C5_report_validity (category : Category) (env : SubmitEnv) :
    (∀ r, (submitEmailThreat category env).2 = some r →
      r.recipientEmailAddress ≠ "" ∧ r.messageUrl ≠ "" ∧
      (r.category = Category.spam ∨ r.category = Category.phishing ∨
        r.category = Category.notJunk)) ∧
    ((submitEmailThreat category env).2 = none →
      ∃ e, (submitEmailThreat category env).1 = Except.error e) := by
  obtain ⟨tokr, ctx, mresp, presp, parse⟩ := env
  constructor
  · intro r hr
    cases tokr with
    | error e => simp [submitEmailThreat] at hr
    | ok tok =>
      cases hrec : getRecipientEmailAddress ctx with
      | error e => simp [submitEmailThreat, hrec] at hr
      | ok email =>
        cases hurl : getCurrentMessageUrl tok ctx mresp parse with
        | error e => simp [submitEmailThreat, hrec, hurl] at hr
        | ok url =>
          simp [submitEmailThreat, hrec, hurl] at hr
          rw [← hr]
          exact ⟨getRecipientEmailAddress_ok_ne ctx email hrec,
            getCurrentMessageUrl_ok_ne tok ctx mresp parse url hurl,
            by cases category <;> simp⟩
  · intro hn
    cases tokr with
    | error e => exact ⟨e, by simp [submitEmailThreat]⟩
    | ok tok =>
      cases hrec : getRecipientEmailAddress ctx with
      | error e => exact ⟨e, by simp [submitEmailThreat, hrec]⟩
      | ok email =>
        cases hurl : getCurrentMessageUrl tok ctx mresp parse with
        | error e => exact ⟨e, by simp [submitEmailThreat, hrec, hurl]⟩
        | ok url => simp [submitEmailThreat, hrec, hurl] at hn

/-- Witness for C5 at a fully successful run: the POSTed report carries
the non-empty mailbox address and the non-empty constructed URL, and its
category is enumerated. -/
theorem C5_witness :
    ("user@contoso.com" : String) ≠ "" ∧
    ("https://graph.microsoft.com/beta/users/u1/messages/AAA=" : String) ≠ "" ∧
    (Category.phishing = Category.spam ∨ Category.phishing = Category.phishing ∨
      Category.phishing = Category.notJunk) :=
  (C5_report_validity Category.phishing
    ⟨Except.ok "tok", ⟨some ⟨some "AAA="⟩, some ⟨some "user@contoso.com"⟩, fun s => s⟩,
      ⟨200, "OK", "\x7b\"id\":\"u1\"\x7d"⟩, ⟨200, "OK", "\x7b\x7d"⟩,
      fun s => if s = "\x7b\"id\":\"u1\"\x7d" then some (Json.obj [("id", Json.str "u1")])
        else some (Json.obj [])⟩).1
    ⟨Category.phishing, "user@contoso.com",
      "https://graph.microsoft.com/beta/users/u1/messages/AAA="⟩ (by rfl)
